import Mathlib

/-!
Shallow embedding of the concurrent link-validation engine of the
QA_Audit_Tool repository (src/backend/main.py and src/qa_audit_tool.py):
link extraction/deduplication, the HEAD→GET fallback probe, the
semaphore-bounded concurrency gate, and result aggregation/categorization.

External library behaviour (HTTP transport, `urllib.parse.urljoin`,
`urlparse(...).netloc`, `validators.url`, BeautifulSoup parsing) is taken
as a parameter: a probe's transport outcomes are an explicit environment,
URL resolution/validation are function arguments.  Python floats are
modelled as exact rationals, Python `None`-able ints as `Option Nat`.
-/

namespace Backend

/-- The `LinkResult` dataclass of `src/backend/main.py` (lines 124-138).
`status_code` is `Optional[int]`; `retry_count` defaults to `0`. -/
structure LinkResult where
  url : String
  status_code : Option Nat
  is_working : Bool
  response_time : ℚ
  error_message : String
  anchor_text : String
  link_type : String
  redirect_chain : List String
  final_url : String
  content_type : String
  method_used : String
  retry_count : Nat := 0
deriving DecidableEq

/-- Outcome of one HTTP request attempt as the probe observes it: either a
response with a status line (status, the URLs of `response.history`, the
final `response.url`, the content-type header), or a transport failure
(its textual description, and the status of a partial response exposed on
the exception object, when any). -/
inductive ReqOutcome where
  | response (status : Nat) (historyUrls : List String) (finalUrl contentType : String)
  | failure (message : String) (partialStatus : Option Nat)
deriving DecidableEq

/-- Whether the attempt obtained a response with a status line. -/
def ReqOutcome.isResponse : ReqOutcome → Bool
  | .response .. => true
  | .failure .. => false

/-- The transport environment one probe runs against: what the HEAD attempt
would observe, what the GET fallback would observe, and the wall-clock
elapsed time at each of the three possible exit points. -/
structure ProbeEnv where
  headOutcome : ReqOutcome
  getOutcome : ReqOutcome
  headElapsed : ℚ
  getElapsed : ℚ
  failElapsed : ℚ
deriving DecidableEq

/-- `ProfessionalLinkChecker.check_single_link_sync` of `src/backend/main.py`
(lines 289-370).  `base_domain` is `urlparse(base_url).netloc`; `netlocOf`
stands for `urlparse(url).netloc`.  HEAD is attempted first; on a
`RequestException` the probe falls back to GET; on a second
`RequestException` a failed result is built, recovering a status code from
the exception's partial response when present.  Note the GET-success
branch passes no `retry_count`, so the dataclass default `0` applies;
only the final-failure branch passes `retry_count=1`. -/
def check_single_link_sync (base_domain : String) (netlocOf : String → String)
    (env : ProbeEnv) (url anchor_text : String) : LinkResult :=
  let link_type := if netlocOf url = base_domain then "internal" else "external"
  match env.headOutcome with
  | .response st hist fin ct =>
      let redirect_chain := hist ++ [fin]
      { url := url
        status_code := some st
        is_working := 200 ≤ st && st < 400
        response_time := env.headElapsed
        error_message := ""
        anchor_text := anchor_text
        link_type := link_type
        redirect_chain := if redirect_chain.length > 1 then redirect_chain else []
        final_url := fin
        content_type := ct
        method_used := "HEAD"
        retry_count := 0 }
  | .failure _ _ =>
    match env.getOutcome with
    | .response st hist fin ct =>
        let redirect_chain := hist ++ [fin]
        { url := url
          status_code := some st
          is_working := 200 ≤ st && st < 400
          response_time := env.getElapsed
          error_message := ""
          anchor_text := anchor_text
          link_type := link_type
          redirect_chain := if redirect_chain.length > 1 then redirect_chain else []
          final_url := fin
          content_type := ct
          method_used := "GET"
          retry_count := 0 }
    | .failure msg partialStatus =>
        { url := url
          status_code := partialStatus
          is_working := false
          response_time := env.failElapsed
          error_message := msg
          anchor_text := anchor_text
          link_type := link_type
          redirect_chain := []
          final_url := url
          content_type := ""
          method_used := "GET"
          retry_count := 1 }

/-- `ProfessionalLinkChecker.check_single_link_async` of
`src/backend/main.py` (lines 405-464).  Same HEAD→GET fallback shape, but
both success branches hard-code `redirect_chain=[]`, the failure branch
records no partial status, and no branch passes `retry_count`. -/
def check_single_link_async (base_domain : String) (netlocOf : String → String)
    (env : ProbeEnv) (url anchor_text : String) : LinkResult :=
  let link_type := if netlocOf url = base_domain then "internal" else "external"
  match env.headOutcome with
  | .response st _ fin ct =>
      { url := url
        status_code := some st
        is_working := 200 ≤ st && st < 400
        response_time := env.headElapsed
        error_message := ""
        anchor_text := anchor_text
        link_type := link_type
        redirect_chain := []
        final_url := fin
        content_type := ct
        method_used := "ASYNC_HEAD"
        retry_count := 0 }
  | .failure _ _ =>
    match env.getOutcome with
    | .response st _ fin ct =>
        { url := url
          status_code := some st
          is_working := 200 ≤ st && st < 400
          response_time := env.getElapsed
          error_message := ""
          anchor_text := anchor_text
          link_type := link_type
          redirect_chain := []
          final_url := fin
          content_type := ct
          method_used := "ASYNC_GET"
          retry_count := 0 }
    | .failure msg _ =>
        { url := url
          status_code := none
          is_working := false
          response_time := env.failElapsed
          error_message := msg
          anchor_text := anchor_text
          link_type := link_type
          redirect_chain := []
          final_url := url
          content_type := ""
          method_used := "ASYNC_GET"
          retry_count := 0 }

/-- `ProfessionalLinkChecker.check_links_async` of `src/backend/main.py`
(lines 372-403).  `asyncio.gather(*tasks, return_exceptions=True)` yields,
per candidate, either its `LinkResult` or the exception the task raised;
the collection loop keeps only `LinkResult` values and drops the rest
(printing an error).  A probe is modelled as a function from a candidate
`(url, anchor)` to `Except String LinkResult`: `Except.error` is a task
whose exception was captured by `return_exceptions=True`. -/
def check_links_async (probe : String × String → Except String LinkResult)
    (links : List (String × String)) : List LinkResult :=
  let results := links.map probe
  results.filterMap fun r =>
    match r with
    | .ok res => some res
    | .error _ => none

end Backend

/-! Python-semantics helpers shared by the embeddings of both files.
String operations are implemented over the character list so that they
evaluate inside the kernel. -/

/-- Whether the first list is an initial segment of the second. -/
def charListHasStart : List Char → List Char → Bool
  | [], _ => true
  | _ :: _, [] => false
  | c :: cs, d :: ds => c == d && charListHasStart cs ds

/-- Whether the first list occurs contiguously inside the second. -/
def charListHasSub (needle : List Char) : List Char → Bool
  | [] => needle.isEmpty
  | d :: ds => charListHasStart needle (d :: ds) || charListHasSub needle ds

/-- Python `s.strip()`: remove leading and trailing whitespace. -/
def pyStrip (s : String) : String :=
  ⟨((s.toList.dropWhile Char.isWhitespace).reverse.dropWhile Char.isWhitespace).reverse⟩

/-- Python `s.startswith(pre)`. -/
def pyStartsWith (s pre : String) : Bool := charListHasStart pre.toList s.toList

/-- Python `s.lower()`. -/
def pyLower (s : String) : String := ⟨s.toList.map Char.toLower⟩

/-- Python `a or b` on strings: `a` when truthy (non-empty), else `b`. -/
def pyOrString (a b : String) : String := if a = "" then b else a

/-- Python `s[:100] + '...' if len(s) > 100 else s`. -/
def pyTruncate100 (s : String) : String :=
  if s.toList.length > 100 then String.mk (s.toList.take 100) ++ "..." else s

/-- Python truthiness of an `Optional[int]` status code, as tested by
`if result.status_code:` — `None` and `0` are falsy. -/
def pyTruthyStatus : Option Nat → Option Nat
  | none => none
  | some c => if c = 0 then none else some c

/-- Python `needle in s.lower()`: contiguous-substring containment. -/
def pyInLower (needle s : String) : Bool :=
  charListHasSub needle.toList (pyLower s).toList

/-! Python floats are IEEE-754 binary64 values; every finite double is a
rational, so `response_time : ℚ` holds a double's exact value.  Double
ARITHMETIC, however, rounds each operation to 53 significant bits
(round-to-nearest, ties-to-even), so the left-fold `sum()` over floats is
order-dependent.  The model below implements that rounding exactly, over
naturals scaled by 2^200 so that every computation is kernel-evaluable:
a nonnegative double x is represented by the natural number x * 2^200.
It is faithful for doubles in [2^-148, 2^800) — every such double is an
integer multiple of 2^-200 and far from overflow/underflow — which covers
any wall-clock response time. -/

/-- Fuelled ⌊log2 n⌋ (0 for n < 2); exact whenever n < 2^fuel. -/
def natLog2F : Nat → Nat → Nat
  | 0, _ => 0
  | fuel + 1, n => if 2 ≤ n then natLog2F fuel (n / 2) + 1 else 0

/-- Round the rational num/den to the nearest multiple of the unit `u`,
ties to the even multiple. -/
def roundUnitNE (num den u : Nat) : Nat :=
  let m := num / (den * u)
  let r := num % (den * u)
  let m2 :=
    if 2 * r < den * u then m
    else if den * u < 2 * r then m + 1
    else if m % 2 = 0 then m else m + 1
  m2 * u

/-- Round a scaled value to 53 significant bits, ties to even — binary64
rounding of the value it represents. -/
def roundScaled (X : Nat) : Nat :=
  if X = 0 then 0
  else
    let L := natLog2F 1200 X
    if L < 52 then X else roundUnitNE X 1 (2 ^ (L - 52))

/-- Binary64 addition on scaled values: the exact sum, rounded. -/
def faddS (X Y : Nat) : Nat := roundScaled (X + Y)

/-- Binary64 division on scaled values: the exact quotient of the
represented values, rounded, again scaled by 2^200. -/
def fdivS (X Y : Nat) : Nat :=
  if Y = 0 then 0
  else
    let N := X * 2 ^ 200
    let Q := N / Y
    if Q = 0 then 0
    else
      let L := natLog2F 1200 Q
      if L < 52 then N / Y else roundUnitNE N Y (2 ^ (L - 52))

/-- Python `sum()` over doubles: a left fold of rounded additions
starting from 0 (adding 0 is exact). -/
def fsumS (l : List Nat) : Nat := l.foldl faddS 0

/-- Scale a nonnegative dyadic rational (a double's exact value) to its
2^200-scaled natural representation. -/
def scale200 (q : ℚ) : Nat := q.num.toNat * 2 ^ 200 / q.den

/-- Read a scaled value back as the exact rational it represents. -/
def unscale200 (n : Nat) : ℚ := (n : ℚ) / 2 ^ 200

/-- Reading back scaled values is injective: distinct scaled naturals
denote distinct rationals. -/
theorem unscale200_injective : Function.Injective unscale200 := by
  intro a b h
  unfold unscale200 at h
  have hne : (2 ^ 200 : ℚ) ≠ 0 := by positivity
  field_simp at h
  exact_mod_cast h

/-- One element of `soup.find_all('a', href=True)` as the extractor reads
it: the raw `href` attribute, the stripped visible text
(`get_text(strip=True)`), and the `title` attribute (empty when absent). -/
structure Anchor where
  href : String
  text : String
  title : String
deriving DecidableEq

namespace Backend

/-- The per-anchor body of the `for link in soup.find_all('a', href=True)`
loop of `extract_links` in `src/backend/main.py` (lines 261-277): strip the
href; skip empty hrefs and those starting with `#`, `javascript:`,
`mailto:`, `tel:`; resolve against the base URL (`urljoin` passed in as it
is an external library function); drop resolved URLs rejected by
`validators.url` (also passed in); compute the anchor text with its
fallbacks and 100-character truncation. -/
def processAnchor (base_url : String) (urljoin : String → String → String)
    (validatorsUrl : String → Bool) (link : Anchor) : Option (String × String) :=
  let href := pyStrip link.href
  if href = "" || pyStartsWith href "#" || pyStartsWith href "javascript:" ||
      pyStartsWith href "mailto:" || pyStartsWith href "tel:" then
    none
  else
    let absolute_url := urljoin base_url href
    if !validatorsUrl absolute_url then
      none
    else
      let anchor_text := pyOrString (pyOrString link.text link.title) href
      some (absolute_url, pyTruncate100 anchor_text)

/-- The duplicate-removal loop of `extract_links` (lines 279-286): a `seen`
set and an output list, keeping the first occurrence of each URL. -/
def removeDuplicates (seen : List String) :
    List (String × String) → List (String × String)
  | [] => []
  | (url, anchor) :: rest =>
    if url ∈ seen then removeDuplicates seen rest
    else (url, anchor) :: removeDuplicates (url :: seen) rest

/-- `ProfessionalLinkChecker.extract_links` of `src/backend/main.py`
(lines 256-287). -/
def extract_links (base_url : String) (urljoin : String → String → String)
    (validatorsUrl : String → Bool) (anchors : List Anchor) :
    List (String × String) :=
  removeDuplicates [] (anchors.filterMap (processAnchor base_url urljoin validatorsUrl))

/-- The result of `calculate_statistics` (`src/backend/main.py` lines
862-897); the Python dict with fixed keys becomes a structure, the
status-code dict an association list in insertion order. -/
structure Statistics where
  total_links : Nat
  working_links : Nat
  broken_links : Nat
  internal_links : Nat
  external_links : Nat
  success_rate : ℚ
  avg_response_time : ℚ
  status_code_distribution : List (Nat × Nat)
  redirects : Nat
  timeouts : Nat
  network_errors : Nat
deriving DecidableEq

/-- `status_codes[result.status_code] += 1` on a `defaultdict(int)`:
increment the entry when the key exists, else append it with value 1. -/
def bumpCode : List (Nat × Nat) → Nat → List (Nat × Nat)
  | [], c => [(c, 1)]
  | (k, v) :: rest, c =>
    if k = c then (k, v + 1) :: rest else (k, v) :: bumpCode rest c

/-- One iteration of the status-code distribution loop of
`calculate_statistics` (lines 876-878): `if result.status_code:
status_codes[result.status_code] += 1`. -/
def distStep (d : List (Nat × Nat)) (r : Backend.LinkResult) : List (Nat × Nat) :=
  match pyTruthyStatus r.status_code with
  | some c => bumpCode d c
  | none => d

/-- The status-code distribution of `calculate_statistics` (lines
874-878), built over an initially empty `defaultdict(int)`. -/
def statusCodeDistribution (link_results : List Backend.LinkResult) :
    List (Nat × Nat) :=
  link_results.foldl distStep []

/-- `calculate_statistics` of `src/backend/main.py` (lines 862-897).
`avg_response_time = sum(response_times) / len(response_times)` is float
arithmetic: the sum is a left fold of binary64 additions, each rounded,
followed by a rounded division — modelled by `fsumS`/`fdivS` on the
2^200-scaled representations of the response times. -/
def calculate_statistics (link_results : List Backend.LinkResult) : Statistics :=
  let total_links := link_results.length
  let working_links := (link_results.filter (fun r => r.is_working)).length
  let broken_links := total_links - working_links
  let internal_links := (link_results.filter (fun r => r.link_type = "internal")).length
  let external_links := (link_results.filter (fun r => r.link_type = "external")).length
  let response_times :=
    (link_results.filter (fun r => r.response_time > 0)).map (fun r => r.response_time)
  let avg_response_time : ℚ :=
    if response_times ≠ [] then
      unscale200 (fdivS (fsumS (response_times.map scale200))
        (response_times.length * 2 ^ 200))
    else 0
  let redirects := (link_results.filter (fun r => !r.redirect_chain.isEmpty)).length
  let timeouts := (link_results.filter (fun r => pyInLower "timeout" r.error_message)).length
  let network_errors :=
    (link_results.filter (fun r =>
      (pyTruthyStatus r.status_code).isNone && !r.is_working)).length
  { total_links := total_links
    working_links := working_links
    broken_links := broken_links
    internal_links := internal_links
    external_links := external_links
    success_rate := if total_links > 0 then (working_links : ℚ) / total_links * 100 else 0
    avg_response_time := avg_response_time
    status_code_distribution := statusCodeDistribution link_results
    redirects := redirects
    timeouts := timeouts
    network_errors := network_errors }

/-- The categories dict of `categorize_errors` (`src/backend/main.py`
lines 899-930); the keys `4xx_errors` and `5xx_errors` become the fields
`errors4xx` and `errors5xx`. -/
structure Categories where
  working_links : List Backend.LinkResult
  broken_links : List Backend.LinkResult
  errors4xx : List Backend.LinkResult
  errors5xx : List Backend.LinkResult
  network_errors : List Backend.LinkResult
  redirects : List Backend.LinkResult
  timeouts : List Backend.LinkResult
deriving DecidableEq

/-- The loop body of `categorize_errors` for one result (lines 911-928).
Note `if result.status_code:` uses Python truthiness, so a present-but-zero
status code takes the `else` (timeout / network-error) branch. -/
def categorizeOne (cats : Categories) (result : Backend.LinkResult) : Categories :=
  if result.is_working then
    let cats := { cats with working_links := cats.working_links ++ [result] }
    if !result.redirect_chain.isEmpty then
      { cats with redirects := cats.redirects ++ [result] }
    else cats
  else
    let cats := { cats with broken_links := cats.broken_links ++ [result] }
    match pyTruthyStatus result.status_code with
    | some c =>
      if 400 ≤ c && c < 500 then { cats with errors4xx := cats.errors4xx ++ [result] }
      else if 500 ≤ c && c < 600 then { cats with errors5xx := cats.errors5xx ++ [result] }
      else cats
    | none =>
      if pyInLower "timeout" result.error_message then
        { cats with timeouts := cats.timeouts ++ [result] }
      else
        { cats with network_errors := cats.network_errors ++ [result] }

/-- The initial categories dict with all seven buckets empty. -/
def emptyCategories : Categories := ⟨[], [], [], [], [], [], []⟩

/-- `categorize_errors` of `src/backend/main.py` (lines 899-930). -/
def categorize_errors (link_results : List Backend.LinkResult) : Categories :=
  link_results.foldl categorizeOne emptyCategories

end Backend

namespace QA

/-- The per-anchor loop body of `extract_links` in `src/qa_audit_tool.py`
(lines 97-113), a verbatim copy of the backend's. -/
def processAnchor (base_url : String) (urljoin : String → String → String)
    (validatorsUrl : String → Bool) (link : Anchor) : Option (String × String) :=
  let href := pyStrip link.href
  if href = "" || pyStartsWith href "#" || pyStartsWith href "javascript:" ||
      pyStartsWith href "mailto:" || pyStartsWith href "tel:" then
    none
  else
    let absolute_url := urljoin base_url href
    if !validatorsUrl absolute_url then
      none
    else
      let anchor_text := pyOrString (pyOrString link.text link.title) href
      some (absolute_url, pyTruncate100 anchor_text)

/-- The duplicate-removal loop of `extract_links` in `src/qa_audit_tool.py`
(lines 115-121). -/
def removeDuplicates (seen : List String) :
    List (String × String) → List (String × String)
  | [] => []
  | (url, anchor) :: rest =>
    if url ∈ seen then removeDuplicates seen rest
    else (url, anchor) :: removeDuplicates (url :: seen) rest

/-- `ProfessionalLinkChecker.extract_links` of `src/qa_audit_tool.py`
(lines 92-123). -/
def extract_links (base_url : String) (urljoin : String → String → String)
    (validatorsUrl : String → Bool) (anchors : List Anchor) :
    List (String × String) :=
  removeDuplicates [] (anchors.filterMap (processAnchor base_url urljoin validatorsUrl))

end QA

/-! The concurrency gate of `check_links_async` (`src/backend/main.py`
lines 386-392): an `asyncio.Semaphore(max_concurrent)`, each task running
its probe inside `async with semaphore`.  Modelled as a transition system:
each task is pending (awaiting the semaphore), running (inside the `async
with` block), or finished; `acquire` needs a free slot and takes it,
`finish` releases the slot — whether the probe returned or raised, since
`async with` releases on exceptions too. -/

/-- Scheduling state of one probe task of the gate. -/
inductive TaskState where
  | pending
  | running
  | finished
deriving DecidableEq

/-- Instantaneous state of the gate: the state of every task plus the
semaphore's free-slot count. -/
structure GateState where
  tasks : List TaskState
  sem : Nat
deriving DecidableEq

/-- The gate's start state: `n` submitted tasks all awaiting admission, a
semaphore with `C` free slots (`asyncio.Semaphore(self.max_concurrent)`). -/
def initGate (n C : Nat) : GateState := ⟨List.replicate n TaskState.pending, C⟩

/-- Number of probes in flight: tasks inside their `async with` block. -/
def countRunning (ts : List TaskState) : Nat :=
  (ts.filter (fun t => t == TaskState.running)).length

/-- One scheduler step of the gate: a pending task acquires a free
semaphore slot and starts its probe, or a running task completes (normally
or exceptionally) and releases its slot. -/
inductive GateStep : GateState → GateState → Prop
  | acquire (s : GateState) (i : Nat)
      (hp : s.tasks.get? i = some TaskState.pending) (hsem : 0 < s.sem) :
      GateStep s ⟨s.tasks.set i TaskState.running, s.sem - 1⟩
  | finish (s : GateState) (i : Nat)
      (hr : s.tasks.get? i = some TaskState.running) :
      GateStep s ⟨s.tasks.set i TaskState.finished, s.sem + 1⟩

/-! Claim predicates and concrete probe environments used in the
theorems below. -/

/-- The spec's working-status predicate: a status code is present and lies
in the interval from 200 inclusive to 400 exclusive. -/
def workingStatus : Option Nat → Bool
  | none => false
  | some c => 200 ≤ c && c < 400

/-- A probe environment where HEAD fails at transport level and the GET
fallback also fails, but the GET exception carries a partial response with
status 302 (as a `requests.exceptions.TooManyRedirects` does). -/
def envRecovered302 : Backend.ProbeEnv :=
  { headOutcome := .failure "connection reset" none
    getOutcome := .failure "too many redirects" (some 302)
    headElapsed := 1
    getElapsed := 1
    failElapsed := 1 }

/-- A probe environment where HEAD fails at transport level and the GET
fallback obtains a 200 response. -/
def envGetSuccess : Backend.ProbeEnv :=
  { headOutcome := .failure "connection reset" none
    getOutcome := .response 200 [] "http://x" "text/html"
    headElapsed := 1
    getElapsed := 2
    failElapsed := 3 }

/-- A probe environment where the HEAD attempt succeeds with status 200
after one redirect hop: two URLs were visited
(`http://a`, then the final `http://b`). -/
def envMultiHop : Backend.ProbeEnv :=
  { headOutcome := .response 200 ["http://a"] "http://b" "text/html"
    getOutcome := .failure "" none
    headElapsed := 1
    getElapsed := 1
    failElapsed := 1 }

/-- A probe environment where the HEAD attempt succeeds directly with
status 200 and a single-hop (empty-history) response. -/
def envHead200 : Backend.ProbeEnv :=
  { headOutcome := .response 200 [] "http://u" "text/html"
    getOutcome := .failure "" none
    headElapsed := 1
    getElapsed := 1
    failElapsed := 1 }

/-- A sample successful probe result, used to build a total probe. -/
def sampleResult : Backend.LinkResult :=
  { url := "http://a"
    status_code := some 200
    is_working := true
    response_time := 1
    error_message := ""
    anchor_text := "x"
    link_type := "internal"
    redirect_chain := []
    final_url := "http://a"
    content_type := "text/html"
    method_used := "HEAD"
    retry_count := 0 }

/-- C1 counterexample: a batch with one candidate whose probe task raised
(captured by `return_exceptions=True`) yields an EMPTY result list —
`check_links_async` drops the exception instead of converting it into a
failed `ProbeResult`, so the output length differs from the candidate
list's length, contradicting the claim at this input. -/
theorem C1_gate_drops_exception :
    Backend.check_links_async (fun _ => Except.error "boom") [("http://a", "x")] = []
    ∧ (Backend.check_links_async (fun _ => Except.error "boom")
        [("http://a", "x")]).length ≠ [("http://a", "x")].length := by
  constructor
  · rfl
  · decide

/-- C1 amended: when no exception escapes any probe (which
`check_single_link_async` guarantees by catching all exceptions), the gate
returns exactly one result per candidate, in candidate order, and no
exception escapes to the caller; a probe outcome that IS an exception is
dropped from the result list, not converted. -/
theorem C1_gate_full_result_set
    (probe : String × String → Except String Backend.LinkResult)
    (links : List (String × String))
    (h : ∀ l ∈ links, (probe l).toOption.isSome = true) :
    List.Forall₂ (fun l r => probe l = Except.ok r) links
      (Backend.check_links_async probe links) := by
  revert h
  induction links with
  | nil =>
    intro _
    simp [Backend.check_links_async]
  | cons a rest ih =>
    intro h
    have ha := h a (List.mem_cons_self a rest)
    cases hpa : probe a with
    | error e =>
      rw [hpa] at ha
      simp [Except.toOption] at ha
    | ok r =>
      have hrec := ih (fun l hl => h l (List.mem_cons_of_mem a hl))
      have hstep : Backend.check_links_async probe (a :: rest)
          = r :: Backend.check_links_async probe rest := by
        simp [Backend.check_links_async, hpa]
      rw [hstep]
      exact List.Forall₂.cons hpa hrec

/-- C1 witness: a concrete total probe over one candidate, where the gate
returns exactly that probe's result. -/
theorem C1_gate_full_result_set_witness :
    List.Forall₂
      (fun (_ : String × String) (r : Backend.LinkResult) =>
        (Except.ok sampleResult : Except String Backend.LinkResult) = Except.ok r)
      [("http://a", "x")]
      (Backend.check_links_async (fun _ => Except.ok sampleResult) [("http://a", "x")]) :=
  C1_gate_full_result_set (fun _ => Except.ok sampleResult) [("http://a", "x")]
    (by decide)

/-- C2 counterexample: when both HEAD and GET fail but the GET exception
exposes a partial response with status 302, the result has
`is_working = false` while its status code is present and lies in
[200, 400), so the claimed equivalence fails at this input. -/
theorem C2_iff_fails_on_recovered_302 :
    ¬ ((Backend.check_single_link_sync "site.test" (fun _ => "site.test")
          envRecovered302 "http://x" "a").is_working
        = workingStatus (Backend.check_single_link_sync "site.test" (fun _ => "site.test")
          envRecovered302 "http://x" "a").status_code) := by
  decide

/-- C2 amended: `is_working = true` always implies the status code is
present and in [200, 400); the full equivalence holds on every path that
obtained a response (HEAD success or GET-fallback success), but on the
final-failure path `is_working` is false even when a status code in
[200, 400) was recovered from the exception's partial response. -/
theorem C2_is_working_vs_status (base_domain : String) (netlocOf : String → String)
    (env : Backend.ProbeEnv) (url anchor : String) :
    ((Backend.check_single_link_sync base_domain netlocOf env url anchor).is_working = true →
      workingStatus
        (Backend.check_single_link_sync base_domain netlocOf env url anchor).status_code = true)
    ∧ (env.headOutcome.isResponse = true ∨ env.getOutcome.isResponse = true →
      (Backend.check_single_link_sync base_domain netlocOf env url anchor).is_working
        = workingStatus
            (Backend.check_single_link_sync base_domain netlocOf env url anchor).status_code) := by
  obtain ⟨ho, go, t1, t2, t3⟩ := env
  cases ho with
  | response st hist fin ct =>
    simp [Backend.check_single_link_sync, workingStatus, Backend.ReqOutcome.isResponse]
  | failure msg ps =>
    cases go with
    | response st hist fin ct =>
      simp [Backend.check_single_link_sync, workingStatus, Backend.ReqOutcome.isResponse]
    | failure msg2 ps2 =>
      simp [Backend.check_single_link_sync, workingStatus, Backend.ReqOutcome.isResponse]

/-- C2 witness: a HEAD-success probe at status 200, where the equivalence
holds with both sides true. -/
theorem C2_is_working_vs_status_witness :
    (Backend.check_single_link_sync "d" (fun _ => "d") envHead200 "u" "a").is_working
      = workingStatus
          (Backend.check_single_link_sync "d" (fun _ => "d") envHead200 "u" "a").status_code :=
  (C2_is_working_vs_status "d" (fun _ => "d") envHead200 "u" "a").2 (Or.inl rfl)

/-- C3 counterexample: a probe whose HEAD fails and whose fallback GET
obtains a 200 response returns `method_used = "GET"` but
`retry_count = 0` — the GET-success branch passes no `retry_count`, so
the dataclass default 0 applies, contradicting the claimed value 1. -/
theorem C3_get_success_retry_zero :
    (Backend.check_single_link_sync "d" (fun _ => "d")
        envGetSuccess "http://x" "a").method_used = "GET"
    ∧ (Backend.check_single_link_sync "d" (fun _ => "d")
        envGetSuccess "http://x" "a").retry_count ≠ 1 := by
  decide

/-- C3 amended: on a HEAD transport failure followed by a GET response,
the result has `method_used = "GET"` and `retry_count = 0` (not 1; only
the final-failure branch sets `retry_count = 1`); and `retry_count > 0`
still only happens when the fallback GET was taken after a HEAD failure. -/
theorem C3_fallback_method_and_retry (base_domain : String) (netlocOf : String → String)
    (env : Backend.ProbeEnv) (url anchor : String) :
    ((env.headOutcome.isResponse = false → env.getOutcome.isResponse = true →
      (Backend.check_single_link_sync base_domain netlocOf env url anchor).method_used = "GET"
      ∧ (Backend.check_single_link_sync base_domain netlocOf env url anchor).retry_count = 0))
    ∧ ((Backend.check_single_link_sync base_domain netlocOf env url anchor).retry_count > 0 →
      env.headOutcome.isResponse = false) := by
  obtain ⟨ho, go, t1, t2, t3⟩ := env
  cases ho with
  | response st hist fin ct =>
    simp [Backend.check_single_link_sync, Backend.ReqOutcome.isResponse]
  | failure msg ps =>
    cases go with
    | response st hist fin ct =>
      simp [Backend.check_single_link_sync, Backend.ReqOutcome.isResponse]
    | failure msg2 ps2 =>
      simp [Backend.check_single_link_sync, Backend.ReqOutcome.isResponse]

/-- C3 witness: the amended statement instantiated at a concrete
HEAD-fails/GET-succeeds environment. -/
theorem C3_fallback_method_and_retry_witness :
    (Backend.check_single_link_sync "d" (fun _ => "d")
        envGetSuccess "http://x" "a").method_used = "GET"
    ∧ (Backend.check_single_link_sync "d" (fun _ => "d")
        envGetSuccess "http://x" "a").retry_count = 0 :=
  (C3_fallback_method_and_retry "d" (fun _ => "d") envGetSuccess "http://x" "a").1 rfl rfl

/-- C4: at a HEAD response that visited two URLs (history [http://a],
final http://b), the asynchronous probe returns an EMPTY redirect chain
while the synchronous probe at the same transport outcome returns the full
chain [http://a, http://b] — the async path hard-codes
`redirect_chain=[]`, losing the multi-hop information the claim (and the
spec, which flags this omission as a defect) requires. -/
theorem C4_async_chain_dropped :
    (Backend.check_single_link_async "d" (fun _ => "d")
        envMultiHop "http://a" "x").redirect_chain = []
    ∧ (Backend.check_single_link_sync "d" (fun _ => "d")
        envMultiHop "http://a" "x").redirect_chain = ["http://a", "http://b"] := by
  constructor
  · rfl
  · rfl

/-! Lemmas about the duplicate-removal loop, and the extraction claims. -/

/-- Every pair surviving duplicate removal has a URL outside the `seen`
set threaded through the loop. -/
theorem removeDuplicates_fst_not_seen (l : List (String × String)) :
    ∀ (seen : List String) (p : String × String),
      p ∈ Backend.removeDuplicates seen l → p.1 ∉ seen := by
  induction l with
  | nil =>
    intro seen p hp
    simp [Backend.removeDuplicates] at hp
  | cons q rest ih =>
    intro seen p hp
    obtain ⟨u, a⟩ := q
    by_cases hu : u ∈ seen
    · rw [Backend.removeDuplicates, if_pos hu] at hp
      exact ih seen p hp
    · rw [Backend.removeDuplicates, if_neg hu] at hp
      rcases List.mem_cons.mp hp with heq | hmem
      · subst heq; exact hu
      · intro hseen
        exact (ih (u :: seen) p hmem) (List.mem_cons_of_mem u hseen)

/-- Duplicate removal yields a subsequence of its input: document order is
preserved and nothing new is produced. -/
theorem removeDuplicates_sublist (l : List (String × String)) :
    ∀ seen : List String, (Backend.removeDuplicates seen l).Sublist l := by
  induction l with
  | nil => intro seen; simp [Backend.removeDuplicates]
  | cons q rest ih =>
    intro seen
    obtain ⟨u, a⟩ := q
    by_cases hu : u ∈ seen
    · rw [Backend.removeDuplicates, if_pos hu]
      exact (ih seen).cons (u, a)
    · rw [Backend.removeDuplicates, if_neg hu]
      exact (ih (u :: seen)).cons₂ (u, a)

/-- The URLs surviving duplicate removal are pairwise distinct. -/
theorem removeDuplicates_nodup (l : List (String × String)) :
    ∀ seen : List String,
      ((Backend.removeDuplicates seen l).map Prod.fst).Nodup := by
  induction l with
  | nil => intro seen; simp [Backend.removeDuplicates]
  | cons q rest ih =>
    intro seen
    obtain ⟨u, a⟩ := q
    by_cases hu : u ∈ seen
    · rw [Backend.removeDuplicates, if_pos hu]
      exact ih seen
    · rw [Backend.removeDuplicates, if_neg hu]
      refine List.nodup_cons.mpr ⟨?_, ih (u :: seen)⟩
      intro hmem
      rcases List.mem_map.mp hmem with ⟨p, hp, hfst⟩
      exact (removeDuplicates_fst_not_seen rest (u :: seen) p hp)
        (hfst ▸ List.mem_cons_self u seen)

/-- For a URL already in `seen`, nothing with that URL survives. -/
theorem removeDuplicates_filter_seen (l : List (String × String)) (seen : List String)
    (u : String) (hu : u ∈ seen) :
    (Backend.removeDuplicates seen l).filter (fun p => p.1 = u) = [] := by
  rw [List.filter_eq_nil_iff]
  intro p hp
  simp only [decide_eq_true_eq]
  intro hfst
  exact (removeDuplicates_fst_not_seen l seen p hp) (hfst ▸ hu)

/-- For a URL not yet seen, the survivors with that URL are exactly the
first occurrence in the input. -/
theorem removeDuplicates_filter_take (l : List (String × String)) :
    ∀ (seen : List String) (u : String), u ∉ seen →
      (Backend.removeDuplicates seen l).filter (fun p => p.1 = u)
        = (l.filter (fun p => p.1 = u)).take 1 := by
  induction l with
  | nil => intro seen u _; simp [Backend.removeDuplicates]
  | cons q rest ih =>
    intro seen u hu
    obtain ⟨v, a⟩ := q
    by_cases hv : v ∈ seen
    · rw [Backend.removeDuplicates, if_pos hv]
      have hvu : ¬(v = u) := fun h => hu (h ▸ hv)
      rw [List.filter_cons]
      simp only [decide_eq_true_eq, hvu, if_false]
      exact ih seen u hu
    · rw [Backend.removeDuplicates, if_neg hv]
      by_cases hvu : v = u
      · subst hvu
        rw [List.filter_cons, List.filter_cons]
        simp only [decide_eq_true_eq, if_pos rfl]
        rw [removeDuplicates_filter_seen rest (v :: seen) v (List.mem_cons_self v seen)]
        simp
      · rw [List.filter_cons, List.filter_cons]
        simp only [decide_eq_true_eq, hvu, if_false]
        exact ih (v :: seen) u (by
          intro hmem
          rcases List.mem_cons.mp hmem with h | h
          · exact hvu h.symm
          · exact hu h)

/-- The four-anchor document of the dedup scenario: hrefs resolving to
A, B, A, C with distinct anchor texts. -/
def anchorsABAC : List Anchor :=
  [ ⟨"http://a", "A1", ""⟩, ⟨"http://b", "B", ""⟩,
    ⟨"http://a", "A2", ""⟩, ⟨"http://c", "C", ""⟩ ]

/-- C7: link extraction deduplicates by exact absolute-URL equality —
the output URLs are pairwise distinct, the output is a subsequence of the
collected (pre-dedup) pairs, and for every URL the output retains exactly
the first collected occurrence (so the first occurrence's anchor text and
document position win); concretely, hrefs resolving to [A, B, A, C] yield
the candidates [A, B, C] in order with the first A's anchor text. -/
theorem C7_extract_dedup_first (base_url : String) (urljoin : String → String → String)
    (validatorsUrl : String → Bool) (anchors : List Anchor) :
    (((Backend.extract_links base_url urljoin validatorsUrl anchors).map Prod.fst).Nodup
    ∧ (Backend.extract_links base_url urljoin validatorsUrl anchors).Sublist
        (anchors.filterMap (Backend.processAnchor base_url urljoin validatorsUrl))
    ∧ ∀ u : String,
        (Backend.extract_links base_url urljoin validatorsUrl anchors).filter
            (fun p => p.1 = u)
          = ((anchors.filterMap (Backend.processAnchor base_url urljoin validatorsUrl)).filter
              (fun p => p.1 = u)).take 1)
    ∧ Backend.extract_links "http://base" (fun _ href => href) (fun _ => true) anchorsABAC
        = [("http://a", "A1"), ("http://b", "B"), ("http://c", "C")] := by
  refine ⟨⟨?_, ?_, ?_⟩, ?_⟩
  · exact removeDuplicates_nodup _ []
  · exact removeDuplicates_sublist _ []
  · intro u
    exact removeDuplicates_filter_take _ [] u (List.not_mem_nil u)
  · rfl

/-- C9: the two near-verbatim copies of the link extractor are
extensionally equal — for every base URL, URL-resolution and
URL-validation functions, and every parsed anchor list, the extractor of
src/qa_audit_tool.py and the extractor of src/backend/main.py return the
same ordered list of (absolute URL, anchor text) pairs. -/
theorem C9_extract_links_copies_equal (base_url : String)
    (urljoin : String → String → String) (validatorsUrl : String → Bool)
    (anchors : List Anchor) :
    QA.extract_links base_url urljoin validatorsUrl anchors
      = Backend.extract_links base_url urljoin validatorsUrl anchors := by
  have hd : ∀ (l : List (String × String)) (seen : List String),
      QA.removeDuplicates seen l = Backend.removeDuplicates seen l := by
    intro l
    induction l with
    | nil => intro seen; rfl
    | cons p rest ih =>
      intro seen
      obtain ⟨u, a⟩ := p
      rw [QA.removeDuplicates, Backend.removeDuplicates, ih, ih]
  have hp : QA.processAnchor base_url urljoin validatorsUrl
      = Backend.processAnchor base_url urljoin validatorsUrl := rfl
  rw [QA.extract_links, Backend.extract_links, hd, hp]

/-! Lemmas about the status-code distribution, and the aggregation
claims. -/

/-- Incrementing a key raises the sum of the dict's values by one. -/
theorem bumpCode_snd_sum (d : List (Nat × Nat)) (c : Nat) :
    ((Backend.bumpCode d c).map Prod.snd).sum = (d.map Prod.snd).sum + 1 := by
  induction d with
  | nil => rfl
  | cons p rest ih =>
    obtain ⟨k, v⟩ := p
    simp only [Backend.bumpCode]
    by_cases hk : k = c
    · simp [hk]
      omega
    · simp [hk, ih]
      omega

/-- Folding the distribution loop adds one to the value sum for every
result with a truthy (present and nonzero) status code. -/
theorem distFold_snd_sum (l : List Backend.LinkResult) :
    ∀ d : List (Nat × Nat),
      ((l.foldl Backend.distStep d).map Prod.snd).sum
        = (d.map Prod.snd).sum
          + (l.filter (fun r => (pyTruthyStatus r.status_code).isSome)).length := by
  induction l with
  | nil => intro d; simp
  | cons r rest ih =>
    intro d
    rw [List.foldl_cons, List.filter_cons]
    cases hts : pyTruthyStatus r.status_code with
    | none => simp [Backend.distStep, hts, ih]
    | some c =>
      simp [Backend.distStep, hts, ih, bumpCode_snd_sum]
      omega

/-- A broken result whose status code is present but zero: Python
truthiness (`if result.status_code:`) treats it as absent. -/
def resultStatusZero : Backend.LinkResult :=
  { url := "http://z"
    status_code := some 0
    is_working := false
    response_time := 1
    error_message := ""
    anchor_text := ""
    link_type := "external"
    redirect_chain := []
    final_url := "http://z"
    content_type := ""
    method_used := "GET"
    retry_count := 1 }

/-- C6 counterexample: for a single result whose status code is present
but equal to 0, the distribution's value sum is 0 while one result has a
present status code — `if result.status_code:` skips a zero status, so
the claimed equality fails at this input. -/
theorem C6_zero_status_not_counted :
    ¬ ((((Backend.calculate_statistics [resultStatusZero]).status_code_distribution).map
          Prod.snd).sum
        = ([resultStatusZero].filter (fun r => r.status_code.isSome)).length) := by
  decide

/-- C6 amended: for every result list, working + broken = total; the sum
of the status-code distribution's values equals the number of results
whose status code is present AND nonzero (Python truthiness of
`if result.status_code:`); and when the total is zero the success rate
is zero. -/
theorem C6_statistics_consistency (l : List Backend.LinkResult) :
    ((Backend.calculate_statistics l).working_links
        + (Backend.calculate_statistics l).broken_links
      = (Backend.calculate_statistics l).total_links)
    ∧ (((Backend.calculate_statistics l).status_code_distribution.map Prod.snd).sum
      = (l.filter (fun r => (pyTruthyStatus r.status_code).isSome)).length)
    ∧ ((Backend.calculate_statistics l).total_links = 0 →
      (Backend.calculate_statistics l).success_rate = 0) := by
  refine ⟨?_, ?_, ?_⟩
  · have hle : (l.filter (fun r => r.is_working)).length ≤ l.length :=
      List.length_filter_le _ _
    simp only [Backend.calculate_statistics]
    omega
  · have hsum := distFold_snd_sum l []
    simpa [Backend.calculate_statistics, Backend.statusCodeDistribution] using hsum
  · intro h
    simp only [Backend.calculate_statistics] at h ⊢
    simp [h]

/-- C6 witness: the empty result list has success rate zero. -/
theorem C6_statistics_consistency_witness :
    (Backend.calculate_statistics []).success_rate = 0 :=
  (C6_statistics_consistency []).2.2 rfl

/-- Lookup of a key's count in the association-list dict, `none` when the
key is absent — the value Python `d[c]` / `c in d` observe, so that two
dicts are Python-equal exactly when `lookupCount` agrees everywhere. -/
def lookupCount (d : List (Nat × Nat)) (c : Nat) : Option Nat :=
  (d.find? (fun p => p.1 == c)).map Prod.snd

/-- Lookup at the head key returns the head value. -/
theorem lookupCount_cons_eq (k v c : Nat) (rest : List (Nat × Nat)) (h : k = c) :
    lookupCount ((k, v) :: rest) c = some v := by
  subst h
  simp [lookupCount, List.find?_cons]

/-- Lookup skips a head entry with a different key. -/
theorem lookupCount_cons_ne (k v c : Nat) (rest : List (Nat × Nat)) (h : ¬ k = c) :
    lookupCount ((k, v) :: rest) c = lookupCount rest c := by
  simp [lookupCount, List.find?_cons, h]

/-- Bumping a key makes its looked-up count one more than before. -/
theorem lookupCount_bumpCode_self (d : List (Nat × Nat)) (c : Nat) :
    lookupCount (Backend.bumpCode d c) c = some ((lookupCount d c).getD 0 + 1) := by
  induction d with
  | nil =>
    simp only [Backend.bumpCode]
    rw [lookupCount_cons_eq c 1 c [] rfl]
    rfl
  | cons p rest ih =>
    obtain ⟨k, v⟩ := p
    by_cases hk : k = c
    · subst hk
      simp only [Backend.bumpCode, eq_self_iff_true, if_true]
      rw [lookupCount_cons_eq k (v + 1) k rest rfl, lookupCount_cons_eq k v k rest rfl]
      rfl
    · simp only [Backend.bumpCode, if_neg hk]
      rw [lookupCount_cons_ne k v c _ hk, lookupCount_cons_ne k v c rest hk]
      exact ih

/-- Bumping a key leaves other keys' looked-up counts unchanged. -/
theorem lookupCount_bumpCode_ne (d : List (Nat × Nat)) (c c' : Nat) (h : ¬ c' = c) :
    lookupCount (Backend.bumpCode d c) c' = lookupCount d c' := by
  induction d with
  | nil =>
    simp only [Backend.bumpCode]
    rw [lookupCount_cons_ne c 1 c' [] (fun hh => h hh.symm)]
  | cons p rest ih =>
    obtain ⟨k, v⟩ := p
    by_cases hk : k = c
    · subst hk
      by_cases hk' : k = c'
      · exact absurd (hk'.symm.trans rfl) h
      · simp only [Backend.bumpCode, eq_self_iff_true, if_true]
        rw [lookupCount_cons_ne k (v + 1) c' rest hk', lookupCount_cons_ne k v c' rest hk']
    · simp only [Backend.bumpCode, if_neg hk]
      by_cases hk' : k = c'
      · subst hk'
        rw [lookupCount_cons_eq k v k _ rfl, lookupCount_cons_eq k v k rest rfl]
      · rw [lookupCount_cons_ne k v c' _ hk', lookupCount_cons_ne k v c' rest hk']
        exact ih

/-- Folding the distribution loop: the looked-up count of a code grows by
its number of truthy occurrences, and a key is absent exactly when it was
absent initially and never occurred. -/
theorem lookupCount_distFold (l : List Backend.LinkResult) :
    ∀ (d : List (Nat × Nat)) (c : Nat),
      ((lookupCount (l.foldl Backend.distStep d) c).getD 0
        = (lookupCount d c).getD 0
          + (l.filterMap (fun r => pyTruthyStatus r.status_code)).count c)
      ∧ (lookupCount (l.foldl Backend.distStep d) c = none ↔
          (lookupCount d c = none
            ∧ (l.filterMap (fun r => pyTruthyStatus r.status_code)).count c = 0)) := by
  induction l with
  | nil => intro d c; simp
  | cons r rest ih =>
    intro d c
    rw [List.foldl_cons, List.filterMap_cons]
    cases hts : pyTruthyStatus r.status_code with
    | none => simpa [Backend.distStep, hts] using ih d c
    | some c0 =>
      simp only [Backend.distStep, hts]
      obtain ⟨ihs, ihn⟩ := ih (Backend.bumpCode d c0) c
      by_cases hc : c0 = c
      · subst hc
        refine ⟨?_, ?_⟩
        · rw [ihs, lookupCount_bumpCode_self]
          simp [List.count_cons]
          omega
        · rw [ihn, lookupCount_bumpCode_self]
          simp [List.count_cons]
      · refine ⟨?_, ?_⟩
        · rw [ihs, lookupCount_bumpCode_ne d c0 c (fun hh => hc hh.symm)]
          simp [List.count_cons, hc]
        · rw [ihn, lookupCount_bumpCode_ne d c0 c (fun hh => hc hh.symm)]
          simp [List.count_cons, hc]

/-- The looked-up count of a code in the final distribution is exactly its
number of truthy occurrences, with absent keys for count zero. -/
theorem lookupCount_statusCodeDistribution (l : List Backend.LinkResult) (c : Nat) :
    lookupCount (Backend.statusCodeDistribution l) c
      = (if (l.filterMap (fun r => pyTruthyStatus r.status_code)).count c = 0 then none
         else some ((l.filterMap (fun r => pyTruthyStatus r.status_code)).count c)) := by
  have hd : Backend.statusCodeDistribution l = l.foldl Backend.distStep [] := rfl
  obtain ⟨hs, hn⟩ := lookupCount_distFold l [] c
  rw [hd]
  by_cases h0 : (l.filterMap (fun r => pyTruthyStatus r.status_code)).count c = 0
  · rw [if_pos h0]
    exact hn.mpr ⟨rfl, h0⟩
  · rw [if_neg h0]
    cases hl : lookupCount (l.foldl Backend.distStep []) c with
    | none => exact absurd (hn.mp hl).2 h0
    | some v =>
      rw [hl] at hs
      simp only [lookupCount, List.find?_nil, Option.map_none, Option.getD] at hs
      simp [hs]

/-- Python equality of two Statistics dicts on every field EXCEPT
`avg_response_time`: every scalar field equal, and the status-code dicts
equal as key-to-value maps (Python `==` on dicts ignores insertion
order). -/
def statisticsEqualExceptAvg (s1 s2 : Backend.Statistics) : Prop :=
  s1.total_links = s2.total_links ∧
  s1.working_links = s2.working_links ∧
  s1.broken_links = s2.broken_links ∧
  s1.internal_links = s2.internal_links ∧
  s1.external_links = s2.external_links ∧
  s1.success_rate = s2.success_rate ∧
  (∀ c, lookupCount s1.status_code_distribution c
    = lookupCount s2.status_code_distribution c) ∧
  s1.redirects = s2.redirects ∧
  s1.timeouts = s2.timeouts ∧
  s1.network_errors = s2.network_errors

/-- A working result whose response time is the double 10^16, which is
exactly representable (10^16 = 5^16 * 2^16 has 38 significant bits). -/
def resT16 : Backend.LinkResult :=
  { url := "http://big"
    status_code := some 200
    is_working := true
    response_time := 10000000000000000
    error_message := ""
    anchor_text := ""
    link_type := "external"
    redirect_chain := []
    final_url := "http://big"
    content_type := ""
    method_used := "HEAD"
    retry_count := 0 }

/-- A working result whose response time is the double 1. -/
def resT1 : Backend.LinkResult :=
  { url := "http://one"
    status_code := some 200
    is_working := true
    response_time := 1
    error_message := ""
    anchor_text := ""
    link_type := "external"
    redirect_chain := []
    final_url := "http://one"
    content_type := ""
    method_used := "HEAD"
    retry_count := 0 }

set_option maxRecDepth 400000 in
/-- C8 counterexample: the average response time is NOT invariant under
permutation — with response times [10^16, 1, 1], the float left-fold sum
is 10^16 (each +1 falls on a tie and rounds down to the even significand)
but in the order [1, 1, 10^16] it is 10^16 + 2, and after the rounded
division by 3 the two averages are the distinct doubles
3333333333333333.5 and 3333333333333334, refuting the claim at this
concrete permuted pair. -/
theorem C8_avg_float_not_invariant :
    [resT16, resT1, resT1].Perm [resT1, resT1, resT16]
    ∧ (Backend.calculate_statistics [resT16, resT1, resT1]).avg_response_time
      ≠ (Backend.calculate_statistics [resT1, resT1, resT16]).avg_response_time := by
  constructor
  · exact (List.Perm.swap resT1 resT16 [resT1]).trans
      (List.Perm.cons resT1 (List.Perm.swap resT1 resT16 []))
  · exact unscale200_injective.ne (by decide)

/-- C8 amended: calculate_statistics is invariant under permutation of
its input on every aggregate field EXCEPT the average response time —
total, working, broken, internal, external, success rate, status-code
distribution (as a map), and the redirect/timeout/network-error counts
are equal for any reordering; avg_response_time is excluded because the
float sum it is built from is order-dependent. -/
theorem C8_statistics_perm_invariant_except_avg (l1 l2 : List Backend.LinkResult)
    (h : l1.Perm l2) :
    statisticsEqualExceptAvg (Backend.calculate_statistics l1)
      (Backend.calculate_statistics l2) := by
  have hlen := h.length_eq
  have hw := (h.filter (fun r => r.is_working)).length_eq
  have hi := (h.filter (fun r => decide (r.link_type = "internal"))).length_eq
  have he := (h.filter (fun r => decide (r.link_type = "external"))).length_eq
  have hred := (h.filter (fun r => !r.redirect_chain.isEmpty)).length_eq
  have hto := (h.filter (fun r => pyInLower "timeout" r.error_message)).length_eq
  have hne := (h.filter (fun r =>
    (pyTruthyStatus r.status_code).isNone && !r.is_working)).length_eq
  have hcount : ∀ c,
      (l1.filterMap (fun r => pyTruthyStatus r.status_code)).count c
        = (l2.filterMap (fun r => pyTruthyStatus r.status_code)).count c :=
    fun c => (h.filterMap (fun r => pyTruthyStatus r.status_code)).count_eq c
  refine ⟨?_, ?_, ?_, ?_, ?_, ?_, ?_, ?_, ?_, ?_⟩
  · simpa [Backend.calculate_statistics] using hlen
  · simpa [Backend.calculate_statistics] using hw
  · simp only [Backend.calculate_statistics]
    rw [hlen, hw]
  · simpa [Backend.calculate_statistics] using hi
  · simpa [Backend.calculate_statistics] using he
  · simp only [Backend.calculate_statistics]
    rw [hlen, hw]
  · intro c
    simp only [Backend.calculate_statistics]
    rw [lookupCount_statusCodeDistribution, lookupCount_statusCodeDistribution, hcount c]
  · simpa [Backend.calculate_statistics] using hred
  · simpa [Backend.calculate_statistics] using hto
  · simpa [Backend.calculate_statistics] using hne

/-- A working internal result used in the C8 witness. -/
def wresA : Backend.LinkResult :=
  { url := "http://s/a"
    status_code := some 200
    is_working := true
    response_time := 1
    error_message := ""
    anchor_text := "a"
    link_type := "internal"
    redirect_chain := []
    final_url := "http://s/a"
    content_type := "text/html"
    method_used := "HEAD"
    retry_count := 0 }

/-- A broken external result used in the C8 witness. -/
def wresB : Backend.LinkResult :=
  { url := "http://t/b"
    status_code := none
    is_working := false
    response_time := 2
    error_message := "read timeout"
    anchor_text := "b"
    link_type := "external"
    redirect_chain := []
    final_url := "http://t/b"
    content_type := ""
    method_used := "GET"
    retry_count := 1 }

/-- C8 witness: the statistics of a concrete two-element list and of its
reversal agree on every field except the average response time. -/
theorem C8_statistics_perm_invariant_except_avg_witness :
    statisticsEqualExceptAvg (Backend.calculate_statistics [wresA, wresB])
      (Backend.calculate_statistics [wresB, wresA]) :=
  C8_statistics_perm_invariant_except_avg [wresA, wresB] [wresB, wresA]
    (List.Perm.swap wresB wresA [])

/-! Membership predicates for the seven category buckets — the branch
conditions of the loop body of categorize_errors — and the categorization
claims. -/

/-- Branch condition routing a result to working_links. -/
def catWorking (r : Backend.LinkResult) : Bool := r.is_working

/-- Branch condition routing a result to redirects. -/
def catRedirect (r : Backend.LinkResult) : Bool :=
  r.is_working && !r.redirect_chain.isEmpty

/-- Branch condition routing a result to broken_links. -/
def catBroken (r : Backend.LinkResult) : Bool := !r.is_working

/-- Branch condition routing a result to 4xx_errors. -/
def cat4xx (r : Backend.LinkResult) : Bool :=
  !r.is_working && (match pyTruthyStatus r.status_code with
    | some c => 400 ≤ c && c < 500
    | none => false)

/-- Branch condition routing a result to 5xx_errors. -/
def cat5xx (r : Backend.LinkResult) : Bool :=
  !r.is_working && (match pyTruthyStatus r.status_code with
    | some c => !(400 ≤ c && c < 500) && (500 ≤ c && c < 600)
    | none => false)

/-- Branch condition routing a result to timeouts. -/
def catTimeout (r : Backend.LinkResult) : Bool :=
  !r.is_working && (pyTruthyStatus r.status_code).isNone
    && pyInLower "timeout" r.error_message

/-- Branch condition routing a result to network_errors. -/
def catNetwork (r : Backend.LinkResult) : Bool :=
  !r.is_working && (pyTruthyStatus r.status_code).isNone
    && !pyInLower "timeout" r.error_message

/-- Each bucket of the categorization fold is its starting content
followed by the input results satisfying that bucket's branch condition,
in input order. -/
theorem categorize_fold (l : List Backend.LinkResult) :
    ∀ cats : Backend.Categories,
      l.foldl Backend.categorizeOne cats =
        { working_links := cats.working_links ++ l.filter catWorking
          broken_links := cats.broken_links ++ l.filter catBroken
          errors4xx := cats.errors4xx ++ l.filter cat4xx
          errors5xx := cats.errors5xx ++ l.filter cat5xx
          network_errors := cats.network_errors ++ l.filter catNetwork
          redirects := cats.redirects ++ l.filter catRedirect
          timeouts := cats.timeouts ++ l.filter catTimeout } := by
  induction l with
  | nil => intro cats; simp
  | cons r rest ih =>
    intro cats
    rw [List.foldl_cons, ih]
    cases hw : r.is_working with
    | true =>
      cases hre : r.redirect_chain.isEmpty with
      | true =>
        simp [Backend.categorizeOne, catWorking, catRedirect, catBroken, cat4xx,
          cat5xx, catTimeout, catNetwork, hw, hre, List.filter_cons,
          List.append_assoc]
      | false =>
        simp [Backend.categorizeOne, catWorking, catRedirect, catBroken, cat4xx,
          cat5xx, catTimeout, catNetwork, hw, hre, List.filter_cons,
          List.append_assoc]
    | false =>
      cases hts : pyTruthyStatus r.status_code with
      | some c =>
        by_cases h4 : (400 ≤ c && c < 500 : Bool) = true
        · simp [Backend.categorizeOne, catWorking, catRedirect, catBroken, cat4xx,
            cat5xx, catTimeout, catNetwork, hw, hts, h4, List.filter_cons,
            List.append_assoc]
        · by_cases h5 : (500 ≤ c && c < 600 : Bool) = true
          · simp [Backend.categorizeOne, catWorking, catRedirect, catBroken, cat4xx,
              cat5xx, catTimeout, catNetwork, hw, hts, h4, h5, List.filter_cons,
              List.append_assoc]
          · simp [Backend.categorizeOne, catWorking, catRedirect, catBroken, cat4xx,
              cat5xx, catTimeout, catNetwork, hw, hts, h4, h5, List.filter_cons,
              List.append_assoc]
      | none =>
        by_cases hto : pyInLower "timeout" r.error_message = true
        · simp [Backend.categorizeOne, catWorking, catRedirect, catBroken, cat4xx,
            cat5xx, catTimeout, catNetwork, hw, hts, hto, List.filter_cons,
            List.append_assoc]
        · simp [Backend.categorizeOne, catWorking, catRedirect, catBroken, cat4xx,
            cat5xx, catTimeout, catNetwork, hw, hts, hto, List.filter_cons,
            List.append_assoc]

/-- C10 counterexample: a broken result whose status code is PRESENT but
zero (below 400, outside both error ranges) lands in network_errors in
addition to broken_links — `if result.status_code:` treats the present
zero as absent and takes the timeout/network branch, so the claim that
such a result appears in no category besides broken_links fails. -/
theorem C10_zero_status_in_network_errors :
    resultStatusZero.is_working = false
    ∧ resultStatusZero.status_code.isSome = true
    ∧ resultStatusZero ∈ (Backend.categorize_errors [resultStatusZero]).broken_links
    ∧ resultStatusZero ∈ (Backend.categorize_errors [resultStatusZero]).network_errors := by
  decide

/-- C10 amended: a non-working result whose status code is present AND
nonzero, lying outside both [400,500) and [500,600) (e.g. a 302 recovered
from a partial response, or 600 and above), is categorized into
broken_links and into no other bucket; a present-but-zero status code is
instead treated as absent and also routed to timeouts or network_errors. -/
theorem C10_out_of_range_broken_only (l : List Backend.LinkResult)
    (r : Backend.LinkResult) (c : Nat)
    (hmem : r ∈ l) (hw : r.is_working = false)
    (hst : pyTruthyStatus r.status_code = some c)
    (h4 : (400 ≤ c && c < 500 : Bool) = false)
    (h5 : (500 ≤ c && c < 600 : Bool) = false) :
    r ∈ (Backend.categorize_errors l).broken_links
    ∧ r ∉ (Backend.categorize_errors l).working_links
    ∧ r ∉ (Backend.categorize_errors l).errors4xx
    ∧ r ∉ (Backend.categorize_errors l).errors5xx
    ∧ r ∉ (Backend.categorize_errors l).timeouts
    ∧ r ∉ (Backend.categorize_errors l).network_errors
    ∧ r ∉ (Backend.categorize_errors l).redirects := by
  have hck : Backend.categorize_errors l
      = l.foldl Backend.categorizeOne Backend.emptyCategories := rfl
  rw [hck, categorize_fold l Backend.emptyCategories]
  refine ⟨?_, ?_, ?_, ?_, ?_, ?_, ?_⟩
  · simp [Backend.emptyCategories, List.mem_filter, hmem, catBroken, hw]
  · simp [Backend.emptyCategories, List.mem_filter, catWorking, hw]
  · simp [Backend.emptyCategories, List.mem_filter, cat4xx, hw, hst, h4]
  · simp [Backend.emptyCategories, List.mem_filter, cat5xx, hw, hst, h4, h5]
  · simp [Backend.emptyCategories, List.mem_filter, catTimeout, hst]
  · simp [Backend.emptyCategories, List.mem_filter, catNetwork, hst]
  · simp [Backend.emptyCategories, List.mem_filter, catRedirect, hw]

/-- A broken result carrying a recovered 302 status, for the C10
witness. -/
def res302 : Backend.LinkResult :=
  { url := "http://r"
    status_code := some 302
    is_working := false
    response_time := 1
    error_message := "too many redirects"
    anchor_text := ""
    link_type := "external"
    redirect_chain := []
    final_url := "http://r"
    content_type := ""
    method_used := "GET"
    retry_count := 1 }

/-- C10 witness: the amended statement at a concrete broken result with
status 302. -/
theorem C10_out_of_range_broken_only_witness :
    res302 ∈ (Backend.categorize_errors [res302]).broken_links
    ∧ res302 ∉ (Backend.categorize_errors [res302]).working_links
    ∧ res302 ∉ (Backend.categorize_errors [res302]).errors4xx
    ∧ res302 ∉ (Backend.categorize_errors [res302]).errors5xx
    ∧ res302 ∉ (Backend.categorize_errors [res302]).timeouts
    ∧ res302 ∉ (Backend.categorize_errors [res302]).network_errors
    ∧ res302 ∉ (Backend.categorize_errors [res302]).redirects :=
  C10_out_of_range_broken_only [res302] res302 302
    (by decide) (by decide) (by decide) (by decide) (by decide)

/-! Lemmas about the gate transition system and the concurrency-bound
claim. -/

/-- In-flight count of a cons. -/
theorem countRunning_cons (t : TaskState) (ts : List TaskState) :
    countRunning (t :: ts)
      = (if t == TaskState.running then 1 else 0) + countRunning ts := by
  by_cases h : t == TaskState.running
  · simp [countRunning, List.filter_cons, h]
    omega
  · simp [countRunning, List.filter_cons, h]

/-- Admitting a pending task raises the in-flight count by one. -/
theorem countRunning_set_running (ts : List TaskState) :
    ∀ i : Nat, ts.get? i = some TaskState.pending →
      countRunning (ts.set i TaskState.running) = countRunning ts + 1 := by
  induction ts with
  | nil => intro i h; simp at h
  | cons t rest ih =>
    intro i h
    cases i with
    | zero =>
      simp only [List.get?_cons_zero, Option.some.injEq] at h
      subst h
      rw [List.set_cons_zero, countRunning_cons, countRunning_cons]
      simp
      omega
    | succ n =>
      simp only [List.get?_cons_succ] at h
      rw [List.set_cons_succ, countRunning_cons, countRunning_cons, ih n h]
      omega

/-- Completing a running task lowers the in-flight count by one. -/
theorem countRunning_set_finished (ts : List TaskState) :
    ∀ i : Nat, ts.get? i = some TaskState.running →
      countRunning ts = countRunning (ts.set i TaskState.finished) + 1 := by
  induction ts with
  | nil => intro i h; simp at h
  | cons t rest ih =>
    intro i h
    cases i with
    | zero =>
      simp only [List.get?_cons_zero, Option.some.injEq] at h
      subst h
      rw [List.set_cons_zero, countRunning_cons, countRunning_cons]
      simp
      omega
    | succ n =>
      simp only [List.get?_cons_succ] at h
      rw [List.set_cons_succ, countRunning_cons, countRunning_cons, ih n h]
      omega

/-- No probe is in flight at the gate's start. -/
theorem countRunning_replicate (n : Nat) :
    countRunning (List.replicate n TaskState.pending) = 0 := by
  induction n with
  | zero => rfl
  | succ k ih => simp [List.replicate_succ, countRunning_cons, ih]

/-- Invariant of the gate: the in-flight count plus the free slots of the
semaphore always equals the ceiling the semaphore was created with. -/
theorem gate_semaphore_invariant (n C : Nat) (s : GateState)
    (h : Relation.ReflTransGen GateStep (initGate n C) s) :
    countRunning s.tasks + s.sem = C := by
  induction h with
  | refl => simp [initGate, countRunning_replicate]
  | tail hsteps hstep ih =>
    cases hstep with
    | acquire i hp hsem =>
      have hcr := countRunning_set_running _ i hp
      dsimp only
      omega
    | finish i hr =>
      have hcr := countRunning_set_finished _ i hr
      dsimp only
      omega

/-- C5: with a concurrency ceiling C of at least 1, in every state the
gate can reach from its start state — probes admitted only when a slot of
the capacity-C semaphore is free, slots released on completion whether the
probe returns or raises — the number of probes in flight never exceeds
C. -/
theorem C5_concurrency_bound (n C : Nat) (hC : 1 ≤ C) (s : GateState)
    (h : Relation.ReflTransGen GateStep (initGate n C) s) :
    countRunning s.tasks ≤ C := by
  have hinv := gate_semaphore_invariant n C s h
  omega

/-- C5 witness: two tasks, ceiling 1, after admitting the first task the
in-flight count is within the bound. -/
theorem C5_concurrency_bound_witness :
    countRunning (GateState.mk ((initGate 2 1).tasks.set 0 TaskState.running)
      ((initGate 2 1).sem - 1)).tasks ≤ 1 :=
  C5_concurrency_bound 2 1 (by decide)
    (GateState.mk ((initGate 2 1).tasks.set 0 TaskState.running) ((initGate 2 1).sem - 1))
    (Relation.ReflTransGen.single
      (GateStep.acquire (initGate 2 1) 0 (by decide) (by decide)))
